import Mathlib

/-!
The gomirai client, `bot/client.go`: session manager and request pipeline.

A shallow embedding of `bot/client.go`.  Go `error` values are modelled by
`Option GoError` (`none` is `nil`), the `map[uint]*Bot` registry by a function
`Nat → Option Bot`, and the two external collaborators (the gentleman HTTP
client and the `tools.Json` accessor) by explicit parameters.
-/

namespace Gomirai

/-! ## Values -/

/-- Go `error` values that reach this file: `errors.New(msg)` made here, and the
errors handed back by the HTTP client's `Send`. -/
inductive GoError where
  | New (msg : String)
  | Transport (reason : String)
  deriving DecidableEq, Repr

/-- The `Error()` method: the message of an error. -/
def GoError.Error : GoError → String
  | GoError.New msg => msg
  | GoError.Transport reason => reason

/-- Go's conversion `string(code)` of an integer: the UTF-8 text of the code
point `code`, and U+FFFD for a value that is not a valid code point. -/
def stringOfUint (code : Nat) : String :=
  if code.isValidChar then String.singleton (Char.ofNat code)
  else String.singleton (Char.ofNat 0xFFFD)

/-- Go's `strconv.Itoa`: the decimal text of an `int`. -/
def Itoa (i : Int) : String :=
  match i with
  | Int.ofNat n => Nat.repr n
  | Int.negSucc n => "-" ++ Nat.repr (n + 1)

/-- The classifier `getErrByCode` (client.go, lines 175-202). -/
def getErrByCode (code : Nat) : Option GoError :=
  match code with
  | 0 => none
  | 1 => some (GoError.New "错误的auth key")
  | 2 => some (GoError.New "指定的Bot不存在")
  | 3 => some (GoError.New "Session失效或不存在")
  | 4 => some (GoError.New "Session未认证(未激活)")
  | 5 => some (GoError.New "发送消息目标不存在(指定对象不存在)")
  | 6 => some (GoError.New "指定文件不存在，出现于发送本地图片")
  | 10 => some (GoError.New "无操作权限，指Bot没有对应操作的限权")
  | 20 => some (GoError.New "Bot被禁言，指Bot当前无法向指定群发送消息")
  | 30 => some (GoError.New "消息过长")
  | 400 => some (GoError.New "错误的访问，如参数错误等")
  | _ => some (GoError.New ("未知错误,Code:" ++ stringOfUint code))

/-- The codes of the switch of `getErrByCode`. -/
def tableCodes : List Nat := [0, 1, 2, 3, 4, 5, 6, 10, 20, 30, 400]

/-! ## Collaborators -/

/-- A value of the `data` maps that `Verify`, `Bind` and `Release` post. -/
inductive JsonValue where
  | Str (s : String)
  | Uint (n : Nat)
  deriving DecidableEq, Repr

/-- A value of the `fields` map of `doPostWithFormData`: a `string`, an
`io.Reader` (its content), or a value of any other dynamic type. -/
inductive FieldValue where
  | Text (s : String)
  | Reader (content : List Nat)
  | Other
  deriving DecidableEq, Repr

/-- The type `multipart.FormFile`. -/
structure FormFile where
  Name : String
  Reader : List Nat
  deriving DecidableEq, Repr

/-- The type `multipart.FormData`; `Data` is the `multipart.DataFields` map. -/
structure FormData where
  Data : List (String × List String)
  Files : List FormFile
  deriving DecidableEq, Repr

/-- What a request carries: nothing, `body.JSON(data)` or `multipart.Data(formData)`. -/
inductive Payload where
  | Empty
  | JSON (data : List (String × JsonValue))
  | Multipart (form : FormData)
  deriving DecidableEq, Repr

/-- A request as built on `c.HttpClient.Request()`. -/
structure Request where
  Path : String
  Method : String
  QueryParams : List (String × String)
  ContentType : Option String
  Payload : Payload
  deriving DecidableEq, Repr

/-- The fields of `gentleman.Response` that the pipeline reads; `Body` is
`res.String()`. -/
structure Response where
  Ok : Bool
  StatusCode : Int
  Body : String
  deriving DecidableEq, Repr

/-- The gentleman HTTP client together with the remote side: `Respond` gives the
pair `(res, err)` that `Send` returns for a request after the requests in
`Sent`, which records every request sent so far. -/
structure Gentleman where
  Respond : List Request → Request → Response × Option GoError
  Sent : List Request

/-- The call `Send()`: the pair `(res, err)` for the request, and the request recorded. -/
def Gentleman.Send (h : Gentleman) (req : Request) : (Response × Option GoError) × Gentleman :=
  (h.Respond h.Sent req, { h with Sent := h.Sent ++ [req] })

/-- The `tools.Json` accessor: `ToInt body path` is
`tools.Json.Get([]byte(body), path...).ToInt()`, and likewise for the others. -/
structure JsonAccessor where
  ToInt : String → List String → Int
  ToUint : String → List String → Nat
  ToString : String → List String → String

/-! ## Client -/

/-- The fields of `Bot` set by `Bind` that the client reads back; the back
reference to the client, the logger and the message channel are left out. -/
structure Bot where
  QQ : Nat
  SessionKey : String
  deriving DecidableEq, Repr

/-- The type `Client`; `Bots` is the allocated `map[uint]*Bot`, `none` standing
for a missing key (the `nil` a lookup yields). The logger is left out. -/
structure Client where
  Name : String
  AuthKey : String
  HttpClient : Gentleman
  Bots : Nat → Option Bot

/-- The map store `c.Bots[qq] = bot`. -/
def mapStore (m : Nat → Option Bot) (qq : Nat) (bot : Bot) : Nat → Option Bot :=
  fun k => if k = qq then some bot else m k

/-- The map removal `delete(c.Bots, qq)`. -/
def mapDelete (m : Nat → Option Bot) (qq : Nat) : Nat → Option Bot :=
  fun k => if k = qq then none else m k

/-- The constructor `NewClient` (lines 31-43): `http` is the gentleman client made for `url`;
`Name` is not set. -/
def NewClient (authKey : String) (http : Gentleman) : Client :=
  { Name := "", AuthKey := authKey, HttpClient := http, Bots := fun _ => none }

/-- How a call ends: it returns, or the goroutine panics. -/
inductive Outcome (α : Type) where
  | Return (a : α)
  | Panic (msg : String)

/-! ## Request pipeline -/

/-- The request built in `doPost` (lines 99-103). -/
def postRequest (path : String) (data : List (String × JsonValue)) : Request :=
  { Path := path, Method := "POST", QueryParams := [],
    ContentType := some "application/json;charset=utf-8", Payload := Payload.JSON data }

/-- The method `doPost` (lines 97-117). -/
def doPost (J : JsonAccessor) (c : Client) (path : String) (data : List (String × JsonValue)) :
    (String × Option GoError) × Client :=
  let sent := c.HttpClient.Send (postRequest path data)
  let res := sent.1.1
  let c := { c with HttpClient := sent.2 }
  match sent.1.2 with
  | some err => (("", some err), c)
  | none =>
    if !res.Ok then
      ((res.Body, some (GoError.New ("Http: " ++ Itoa res.StatusCode))), c)
    else if J.ToInt res.Body ["code"] ≠ 0 then
      ((res.Body, getErrByCode (J.ToUint res.Body ["code"])), c)
    else
      ((res.Body, none), c)

/-- The statement `data[key] = append(data[key], unbox)` on the `multipart.DataFields` map. -/
def appendData : List (String × List String) → String → String → List (String × List String)
  | [], key, unbox => [(key, [unbox])]
  | (k, vs) :: rest, key, unbox =>
    if k = key then (k, vs ++ [unbox]) :: rest else (k, vs) :: appendData rest key unbox

/-- The loop of `doPostWithFormData` (lines 120-131) over the fields in the
order the map yields them. -/
def formOfFields (fields : List (String × FieldValue)) : FormData :=
  fields.foldl
    (fun form kv =>
      match kv.2 with
      | FieldValue.Text unbox => { form with Data := appendData form.Data kv.1 unbox }
      | FieldValue.Reader unbox => { form with Files := form.Files ++ [{ Name := kv.1, Reader := unbox }] }
      | FieldValue.Other => form)
    { Data := [], Files := [] }

/-- The request built in `doPostWithFormData` (lines 134-137). -/
def formRequest (path : String) (fields : List (String × FieldValue)) : Request :=
  { Path := path, Method := "POST", QueryParams := [], ContentType := none,
    Payload := Payload.Multipart (formOfFields fields) }

/-- The method `doPostWithFormData` (lines 119-151). -/
def doPostWithFormData (J : JsonAccessor) (c : Client) (path : String)
    (fields : List (String × FieldValue)) : (String × Option GoError) × Client :=
  let sent := c.HttpClient.Send (formRequest path fields)
  let res := sent.1.1
  let c := { c with HttpClient := sent.2 }
  match sent.1.2 with
  | some err => (("", some err), c)
  | none =>
    if !res.Ok then
      ((res.Body, some (GoError.New ("Http: " ++ Itoa res.StatusCode))), c)
    else if J.ToInt res.Body ["code"] ≠ 0 then
      ((res.Body, getErrByCode (J.ToUint res.Body ["code"])), c)
    else
      ((res.Body, none), c)

/-- The request built in `doGet` (lines 155-159). -/
def getRequest (path : String) (params : List (String × String)) : Request :=
  { Path := path, Method := "GET", QueryParams := params,
    ContentType := some "application/json;charset=utf-8", Payload := Payload.Empty }

/-- The method `doGet` (lines 153-173). -/
def doGet (J : JsonAccessor) (c : Client) (path : String) (params : List (String × String)) :
    (String × Option GoError) × Client :=
  let sent := c.HttpClient.Send (getRequest path params)
  let res := sent.1.1
  let c := { c with HttpClient := sent.2 }
  match sent.1.2 with
  | some err => (("", some err), c)
  | none =>
    if !res.Ok then
      ((res.Body, some (GoError.New ("Http: " ++ Itoa res.StatusCode))), c)
    else if J.ToInt res.Body ["code"] ≠ 0 then
      ((res.Body, getErrByCode (J.ToUint res.Body ["code"])), c)
    else
      ((res.Body, none), c)

/-! ## Operations -/

/-- The method `About` (lines 48-54). -/
def About (J : JsonAccessor) (c : Client) : (String × Option GoError) × Client :=
  let r := doGet J c "/about" []
  match r.1.2 with
  | some err => (("", some err), r.2)
  | none => ((J.ToString r.1.1 ["data", "version"], none), r.2)

/-- The method `Verify` (lines 59-67). -/
def Verify (J : JsonAccessor) (c : Client) : (String × Option GoError) × Client :=
  let data := [("verifyKey", JsonValue.Str c.AuthKey)]
  let r := doPost J c "/verify" data
  match r.1.2 with
  | some err => (("", some err), r.2)
  | none => ((J.ToString r.1.1 ["session"], none), r.2)

/-- The method `Bind` (lines 70-80): the new bot is stored under `qq` and the stored
entry is returned; the `SetChannel` call on the stored bot, which sets up its
message channel, is left out. -/
def Bind (J : JsonAccessor) (c : Client) (qq : Nat) (sessionKey : String) :
    (Option Bot × Option GoError) × Client :=
  let data := [("sessionKey", JsonValue.Str sessionKey), ("qq", JsonValue.Uint qq)]
  let r := doPost J c "/bind" data
  match r.1.2 with
  | some err => ((none, some err), r.2)
  | none =>
    let c := { r.2 with Bots := mapStore r.2.Bots qq { QQ := qq, SessionKey := sessionKey } }
    ((c.Bots qq, none), c)

/-- The method `Release` (lines 84-93): `c.Bots[qq].SessionKey` dereferences the `nil` that
a missing key yields. -/
def Release (J : JsonAccessor) (c : Client) (qq : Nat) : Outcome (Option GoError × Client) :=
  match c.Bots qq with
  | none => Outcome.Panic "runtime error: invalid memory address or nil pointer dereference"
  | some bot =>
    let data := [("sessionKey", JsonValue.Str bot.SessionKey), ("qq", JsonValue.Uint qq)]
    let r := doPost J c "release" data
    match r.1.2 with
    | some err => Outcome.Return (some err, r.2)
    | none => Outcome.Return (none, { r.2 with Bots := mapDelete r.2.Bots qq })

/-! ## Fixtures for the examples -/

/-- A server for which every `Send` returns `(res, err)`. -/
def stubServer (res : Response) (err : Option GoError) : Gentleman :=
  { Respond := fun _ _ => (res, err), Sent := [] }

/-- What json-iterator (the library behind `tools.Json`) reads from the bodies
used in the examples: on `{"code":2}` both integer readers yield 2; on
`{"code":-1}` the signed reader yields -1 and the unsigned reader, which
rejects the sign, yields 0; on the other bodies (`{"code":0}`, or no `code`
member) both yield 0. -/
def stubJson : JsonAccessor where
  ToInt body path :=
    if path = ["code"] ∧ body = "\x7b\"code\":2\x7d" then 2
    else if path = ["code"] ∧ body = "\x7b\"code\":-1\x7d" then -1
    else 0
  ToUint body path :=
    if path = ["code"] ∧ body = "\x7b\"code\":2\x7d" then 2 else 0
  ToString body path :=
    if path = ["session"] ∧ body = "\x7b\"session\":\"abc123\"\x7d" then "abc123"
    else if path = ["data", "version"] ∧ body = "\x7b\"data\":\x7b\"version\":\"2.0\"\x7d\x7d" then "2.0"
    else ""

/-- A client with sessions for 1 and 2 and a server that accepts every request. -/
def acceptingClient : Client :=
  { Name := "", AuthKey := "secret",
    HttpClient := stubServer ⟨true, 200, "\x7b\"code\":0\x7d"⟩ none,
    Bots := mapStore (mapStore (fun _ => none) 1 ⟨1, "s1"⟩) 2 ⟨2, "s2"⟩ }

/-- A client with a session `"old"` for 12345 and a server that answers every
request with `{"code":2}`. -/
def rejectingClient : Client :=
  { Name := "", AuthKey := "secret",
    HttpClient := stubServer ⟨true, 200, "\x7b\"code\":2\x7d"⟩ none,
    Bots := mapStore (fun _ => none) 12345 ⟨12345, "old"⟩ }

/-- A client whose registry holds a session for 12345 and whose every `Send`
fails with an error that names the request, though a well-formed response
comes with it. -/
def refusedClient : Client :=
  { Name := "", AuthKey := "secret",
    HttpClient :=
      { Respond := fun _ req =>
          (⟨true, 200, "\x7b\"code\":2\x7d"⟩,
            some (GoError.Transport
              (req.Method ++ " " ++ req.Path ++ ": connection refused"))),
        Sent := [] },
    Bots := mapStore (fun _ => none) 12345 ⟨12345, "abc123"⟩ }

/-! ## Error classifier -/

/-- C1: `getErrByCode` returns nil for code 0 and, for each of the codes 1, 2, 3,
4, 5, 6, 10, 20, 30 and 400, the error made from the message the switch gives
that code; the ten messages are pairwise distinct. -/
theorem getErrByCode_table :
    getErrByCode 0 = none ∧
    getErrByCode 1 = some (GoError.New "错误的auth key") ∧
    getErrByCode 2 = some (GoError.New "指定的Bot不存在") ∧
    getErrByCode 3 = some (GoError.New "Session失效或不存在") ∧
    getErrByCode 4 = some (GoError.New "Session未认证(未激活)") ∧
    getErrByCode 5 = some (GoError.New "发送消息目标不存在(指定对象不存在)") ∧
    getErrByCode 6 = some (GoError.New "指定文件不存在，出现于发送本地图片") ∧
    getErrByCode 10 = some (GoError.New "无操作权限，指Bot没有对应操作的限权") ∧
    getErrByCode 20 = some (GoError.New "Bot被禁言，指Bot当前无法向指定群发送消息") ∧
    getErrByCode 30 = some (GoError.New "消息过长") ∧
    getErrByCode 400 = some (GoError.New "错误的访问，如参数错误等") ∧
    (List.map (fun code => Option.map GoError.Error (getErrByCode code))
      [0, 1, 2, 3, 4, 5, 6, 10, 20, 30, 400]).Nodup := by
  decide

/-- The default branch: a code outside the switch gets a non-nil error whose
message is the fixed prefix followed by `string(code)`. -/
theorem getErrByCode_default (code : Nat) (h : code ∉ tableCodes) :
    getErrByCode code = some (GoError.New ("未知错误,Code:" ++ stringOfUint code)) := by
  simp only [tableCodes, List.mem_cons, List.mem_singleton, List.not_mem_nil, or_false,
    not_or] at h
  obtain ⟨h0, h1, h2, h3, h4, h5, h6, h10, h20, h30, h400⟩ := h
  unfold getErrByCode
  split <;> first | rfl | omega

/-- C2: the codes 55296 and 55297 (two surrogate code points) and 1114112 (above
the last code point) are outside the switch, and `getErrByCode` gives all three
one and the same error, whose message ends in U+FFFD: the message does not
determine the code. -/
theorem getErrByCode_unmapped_codes_collide :
    55296 ∉ tableCodes ∧ 55297 ∉ tableCodes ∧ 1114112 ∉ tableCodes ∧
    getErrByCode 55296
      = some (GoError.New ("未知错误,Code:" ++ String.singleton (Char.ofNat 0xFFFD))) ∧
    getErrByCode 55297 = getErrByCode 55296 ∧
    getErrByCode 1114112 = getErrByCode 55296 := by
  decide

/-! ## Request pipeline -/

/-- What `doPost` returns, by the pair `(res, err)` that `Send` gave. -/
theorem doPost_fst (J : JsonAccessor) (c : Client) (path : String)
    (data : List (String × JsonValue)) :
    (doPost J c path data).1 =
      match (c.HttpClient.Respond c.HttpClient.Sent (postRequest path data)).2 with
      | some err => ("", some err)
      | none =>
        let res := (c.HttpClient.Respond c.HttpClient.Sent (postRequest path data)).1
        if !res.Ok then (res.Body, some (GoError.New ("Http: " ++ Itoa res.StatusCode)))
        else if J.ToInt res.Body ["code"] ≠ 0 then
          (res.Body, getErrByCode (J.ToUint res.Body ["code"]))
        else (res.Body, none) := by
  simp only [doPost, Gentleman.Send]
  cases (c.HttpClient.Respond c.HttpClient.Sent (postRequest path data)).2 with
  | some err => rfl
  | none => simp only []; split_ifs <;> rfl

/-- The client after `doPost`: only the record of sent requests has grown, by
the request of this call. -/
theorem doPost_snd (J : JsonAccessor) (c : Client) (path : String)
    (data : List (String × JsonValue)) :
    (doPost J c path data).2 =
      { c with HttpClient :=
          { c.HttpClient with Sent := c.HttpClient.Sent ++ [postRequest path data] } } := by
  simp only [doPost, Gentleman.Send]
  cases (c.HttpClient.Respond c.HttpClient.Sent (postRequest path data)).2 with
  | some err => rfl
  | none => simp only []; split_ifs <;> rfl

/-- What `doGet` returns, by the pair `(res, err)` that `Send` gave. -/
theorem doGet_fst (J : JsonAccessor) (c : Client) (path : String)
    (params : List (String × String)) :
    (doGet J c path params).1 =
      match (c.HttpClient.Respond c.HttpClient.Sent (getRequest path params)).2 with
      | some err => ("", some err)
      | none =>
        let res := (c.HttpClient.Respond c.HttpClient.Sent (getRequest path params)).1
        if !res.Ok then (res.Body, some (GoError.New ("Http: " ++ Itoa res.StatusCode)))
        else if J.ToInt res.Body ["code"] ≠ 0 then
          (res.Body, getErrByCode (J.ToUint res.Body ["code"]))
        else (res.Body, none) := by
  simp only [doGet, Gentleman.Send]
  cases (c.HttpClient.Respond c.HttpClient.Sent (getRequest path params)).2 with
  | some err => rfl
  | none => simp only []; split_ifs <;> rfl

/-- The client after `doGet`. -/
theorem doGet_snd (J : JsonAccessor) (c : Client) (path : String)
    (params : List (String × String)) :
    (doGet J c path params).2 =
      { c with HttpClient :=
          { c.HttpClient with Sent := c.HttpClient.Sent ++ [getRequest path params] } } := by
  simp only [doGet, Gentleman.Send]
  cases (c.HttpClient.Respond c.HttpClient.Sent (getRequest path params)).2 with
  | some err => rfl
  | none => simp only []; split_ifs <;> rfl

/-- What `doPostWithFormData` returns, by the pair `(res, err)` that `Send` gave. -/
theorem doPostWithFormData_fst (J : JsonAccessor) (c : Client) (path : String)
    (fields : List (String × FieldValue)) :
    (doPostWithFormData J c path fields).1 =
      match (c.HttpClient.Respond c.HttpClient.Sent (formRequest path fields)).2 with
      | some err => ("", some err)
      | none =>
        let res := (c.HttpClient.Respond c.HttpClient.Sent (formRequest path fields)).1
        if !res.Ok then (res.Body, some (GoError.New ("Http: " ++ Itoa res.StatusCode)))
        else if J.ToInt res.Body ["code"] ≠ 0 then
          (res.Body, getErrByCode (J.ToUint res.Body ["code"]))
        else (res.Body, none) := by
  simp only [doPostWithFormData, Gentleman.Send]
  cases (c.HttpClient.Respond c.HttpClient.Sent (formRequest path fields)).2 with
  | some err => rfl
  | none => simp only []; split_ifs <;> rfl

/-- On a response with a success status whose signed `code` read is nonzero,
`doPost` returns the body and the classifier's result for the unsigned read;
on one whose signed read is zero, the body and nil. -/
theorem doPost_ok (J : JsonAccessor) (c : Client) (path : String)
    (data : List (String × JsonValue)) (res : Response)
    (hsend : c.HttpClient.Respond c.HttpClient.Sent (postRequest path data) = (res, none))
    (hok : res.Ok = true) :
    (J.ToInt res.Body ["code"] ≠ 0 →
      (doPost J c path data).1 = (res.Body, getErrByCode (J.ToUint res.Body ["code"]))) ∧
    (J.ToInt res.Body ["code"] = 0 → (doPost J c path data).1 = (res.Body, none)) := by
  rw [doPost_fst, hsend]
  constructor <;> intro h <;> simp [hok, h]

/-- C3: a response with a success status and the body `{"code":-1}`, whose
signed `code` read is -1 and unsigned read is 0: `doPost` returns the body with
a nil error, and `Bind` then registers the session. -/
theorem doPost_negative_code_nil_error :
    stubJson.ToInt "\x7b\"code\":-1\x7d" ["code"] = -1 ∧
    stubJson.ToUint "\x7b\"code\":-1\x7d" ["code"] = 0 ∧
    (doPost stubJson
        (NewClient "secret" (stubServer ⟨true, 200, "\x7b\"code\":-1\x7d"⟩ none))
        "/bind" [("sessionKey", JsonValue.Str "abc123"), ("qq", JsonValue.Uint 12345)]).1
      = ("\x7b\"code\":-1\x7d", none) ∧
    (Bind stubJson
        (NewClient "secret" (stubServer ⟨true, 200, "\x7b\"code\":-1\x7d"⟩ none))
        12345 "abc123").1
      = (some ⟨12345, "abc123"⟩, none) := by
  decide

/-- C4: when `Send` delivers a response whose status is not a success, each of
`doPost`, `doGet` and `doPostWithFormData` returns the response body with the
error "Http: " followed by the decimal status, whatever the accessor reads
from the body. -/
theorem http_status_before_code (J : JsonAccessor) (c : Client) (res : Response)
    (hok : res.Ok = false) :
    (∀ path data,
      c.HttpClient.Respond c.HttpClient.Sent (postRequest path data) = (res, none) →
      (doPost J c path data).1
        = (res.Body, some (GoError.New ("Http: " ++ Itoa res.StatusCode)))) ∧
    (∀ path params,
      c.HttpClient.Respond c.HttpClient.Sent (getRequest path params) = (res, none) →
      (doGet J c path params).1
        = (res.Body, some (GoError.New ("Http: " ++ Itoa res.StatusCode)))) ∧
    (∀ path fields,
      c.HttpClient.Respond c.HttpClient.Sent (formRequest path fields) = (res, none) →
      (doPostWithFormData J c path fields).1
        = (res.Body, some (GoError.New ("Http: " ++ Itoa res.StatusCode)))) := by
  refine ⟨?_, ?_, ?_⟩
  · intro path data h
    rw [doPost_fst, h]; simp [hok]
  · intro path params h
    rw [doGet_fst, h]; simp [hok]
  · intro path fields h
    rw [doPostWithFormData_fst, h]; simp [hok]

/-- C4 at a concrete input: status 500 with the body `{"code":2}`, and with
the body `{"code":0}`. -/
theorem http_status_before_code_witness :
    (⟨false, 500, "\x7b\"code\":2\x7d"⟩ : Response).Ok = false ∧
    (doPost stubJson
        (NewClient "secret" (stubServer ⟨false, 500, "\x7b\"code\":2\x7d"⟩ none))
        "/verify" [("verifyKey", JsonValue.Str "secret")]).1
      = ("\x7b\"code\":2\x7d", some (GoError.New "Http: 500")) ∧
    (doGet stubJson
        (NewClient "secret" (stubServer ⟨false, 500, "\x7b\"code\":0\x7d"⟩ none))
        "/about" []).1
      = ("\x7b\"code\":0\x7d", some (GoError.New "Http: 500")) :=
  ⟨rfl,
    (http_status_before_code stubJson
      (NewClient "secret" (stubServer ⟨false, 500, "\x7b\"code\":2\x7d"⟩ none))
      ⟨false, 500, "\x7b\"code\":2\x7d"⟩ rfl).1 _ _ rfl,
    (http_status_before_code stubJson
      (NewClient "secret" (stubServer ⟨false, 500, "\x7b\"code\":0\x7d"⟩ none))
      ⟨false, 500, "\x7b\"code\":0\x7d"⟩ rfl).2.1 _ _ rfl⟩

/-- C10: when `Send` gives one and the same pair `(res, err)` for the requests of
`doGet`, `doPost` and `doPostWithFormData`, the three return the same
(body, error) pair. -/
theorem request_paths_agree (J : JsonAccessor) (c : Client)
    (pathG pathP pathF : String) (params : List (String × String))
    (data : List (String × JsonValue)) (fields : List (String × FieldValue))
    (out : Response × Option GoError)
    (hG : c.HttpClient.Respond c.HttpClient.Sent (getRequest pathG params) = out)
    (hP : c.HttpClient.Respond c.HttpClient.Sent (postRequest pathP data) = out)
    (hF : c.HttpClient.Respond c.HttpClient.Sent (formRequest pathF fields) = out) :
    (doGet J c pathG params).1 = (doPost J c pathP data).1 ∧
    (doPostWithFormData J c pathF fields).1 = (doPost J c pathP data).1 := by
  rw [doGet_fst, doPost_fst, doPostWithFormData_fst, hG, hP, hF]
  exact ⟨rfl, rfl⟩

/-- C10 at a concrete input: a success status with the body `{"code":2}`. -/
theorem request_paths_agree_witness :
    (doGet stubJson
        (NewClient "secret" (stubServer ⟨true, 200, "\x7b\"code\":2\x7d"⟩ none)) "/about" []).1
      = (doPost stubJson
        (NewClient "secret" (stubServer ⟨true, 200, "\x7b\"code\":2\x7d"⟩ none)) "/verify"
        [("verifyKey", JsonValue.Str "secret")]).1 ∧
    (doPostWithFormData stubJson
        (NewClient "secret" (stubServer ⟨true, 200, "\x7b\"code\":2\x7d"⟩ none)) "/upload"
        [("type", FieldValue.Text "group"), ("img", FieldValue.Reader [137, 80])]).1
      = (doPost stubJson
        (NewClient "secret" (stubServer ⟨true, 200, "\x7b\"code\":2\x7d"⟩ none)) "/verify"
        [("verifyKey", JsonValue.Str "secret")]).1 ∧
    (doPost stubJson
        (NewClient "secret" (stubServer ⟨true, 200, "\x7b\"code\":2\x7d"⟩ none)) "/verify"
        [("verifyKey", JsonValue.Str "secret")]).1
      = ("\x7b\"code\":2\x7d", some (GoError.New "指定的Bot不存在")) :=
  ⟨(request_paths_agree stubJson
      (NewClient "secret" (stubServer ⟨true, 200, "\x7b\"code\":2\x7d"⟩ none))
      "/about" "/verify" "/upload" [] [("verifyKey", JsonValue.Str "secret")]
      [("type", FieldValue.Text "group"), ("img", FieldValue.Reader [137, 80])]
      (⟨true, 200, "\x7b\"code\":2\x7d"⟩, none) rfl rfl rfl).1,
    (request_paths_agree stubJson
      (NewClient "secret" (stubServer ⟨true, 200, "\x7b\"code\":2\x7d"⟩ none))
      "/about" "/verify" "/upload" [] [("verifyKey", JsonValue.Str "secret")]
      [("type", FieldValue.Text "group"), ("img", FieldValue.Reader [137, 80])]
      (⟨true, 200, "\x7b\"code\":2\x7d"⟩, none) rfl rfl rfl).2,
    by decide⟩

/-! ## Operations -/

/-- A `Bind` that returns an error returns no bot and leaves the client as
`doPost` left it. -/
theorem Bind_of_error (J : JsonAccessor) (c : Client) (qq : Nat) (sessionKey : String)
    (h : (Bind J c qq sessionKey).1.2 ≠ none) :
    (Bind J c qq sessionKey).1.1 = none ∧
    (Bind J c qq sessionKey).2 =
      (doPost J c "/bind"
        [("sessionKey", JsonValue.Str sessionKey), ("qq", JsonValue.Uint qq)]).2 := by
  unfold Bind at h ⊢
  cases hp : (doPost J c "/bind"
      [("sessionKey", JsonValue.Str sessionKey), ("qq", JsonValue.Uint qq)]).1.2 with
  | some err => simp [hp]
  | none => simp [hp] at h

/-- A `Bind` that returns no error returns the new bot and stores it under `qq`. -/
theorem Bind_of_success (J : JsonAccessor) (c : Client) (qq : Nat) (sessionKey : String)
    (h : (Bind J c qq sessionKey).1.2 = none) :
    (Bind J c qq sessionKey).1.1 = some ⟨qq, sessionKey⟩ ∧
    (Bind J c qq sessionKey).2.Bots = mapStore c.Bots qq ⟨qq, sessionKey⟩ ∧
    (Bind J c qq sessionKey).2.HttpClient.Sent = c.HttpClient.Sent ++
      [postRequest "/bind"
        [("sessionKey", JsonValue.Str sessionKey), ("qq", JsonValue.Uint qq)]] := by
  unfold Bind at h ⊢
  cases hp : (doPost J c "/bind"
      [("sessionKey", JsonValue.Str sessionKey), ("qq", JsonValue.Uint qq)]).1.2 with
  | some err => simp [hp] at h
  | none => simp [hp, doPost_snd, mapStore]

/-- The method `Release` for an identity that has an entry: it sends the entry's session
key and returns; the entry is deleted exactly when `doPost` returned no error. -/
theorem Release_of_entry (J : JsonAccessor) (c : Client) (qq : Nat) (bot : Bot)
    (h : c.Bots qq = some bot) :
    ∃ err c', Release J c qq = Outcome.Return (err, c') ∧
      err = (doPost J c "release"
        [("sessionKey", JsonValue.Str bot.SessionKey), ("qq", JsonValue.Uint qq)]).1.2 ∧
      c'.HttpClient.Sent = c.HttpClient.Sent ++
        [postRequest "release"
          [("sessionKey", JsonValue.Str bot.SessionKey), ("qq", JsonValue.Uint qq)]] ∧
      (err = none → c'.Bots = mapDelete c.Bots qq) ∧
      (err ≠ none → c'.Bots = c.Bots) := by
  unfold Release
  simp only [h]
  cases hp : (doPost J c "release"
      [("sessionKey", JsonValue.Str bot.SessionKey), ("qq", JsonValue.Uint qq)]).1.2 with
  | some err => exact ⟨some err, _, rfl, rfl, by simp [doPost_snd], by simp, by simp [doPost_snd]⟩
  | none => exact ⟨none, _, rfl, rfl, by simp [doPost_snd], by simp [doPost_snd], by simp⟩

/-- C5: when the `Send` of an operation's own request returns an error `e`,
whatever response comes with it and whatever the accessor would read, the
operation returns exactly `e` with an empty result: `doGet`, `doPost` and
`doPostWithFormData` the empty string, `About` and `Verify` the empty string,
`Bind` no bot, and `Release` for an identity with an entry (the one case in
which it sends) the error alone; `Bind` and `Release` leave the registry as it
was. -/
theorem transport_error_returned (J : JsonAccessor) (c : Client) :
    (∀ path params e,
      (c.HttpClient.Respond c.HttpClient.Sent (getRequest path params)).2 = some e →
      (doGet J c path params).1 = ("", some e)) ∧
    (∀ path data e,
      (c.HttpClient.Respond c.HttpClient.Sent (postRequest path data)).2 = some e →
      (doPost J c path data).1 = ("", some e)) ∧
    (∀ path fields e,
      (c.HttpClient.Respond c.HttpClient.Sent (formRequest path fields)).2 = some e →
      (doPostWithFormData J c path fields).1 = ("", some e)) ∧
    (∀ e,
      (c.HttpClient.Respond c.HttpClient.Sent (getRequest "/about" [])).2 = some e →
      (About J c).1 = ("", some e)) ∧
    (∀ e,
      (c.HttpClient.Respond c.HttpClient.Sent
        (postRequest "/verify" [("verifyKey", JsonValue.Str c.AuthKey)])).2 = some e →
      (Verify J c).1 = ("", some e)) ∧
    (∀ qq sessionKey e,
      (c.HttpClient.Respond c.HttpClient.Sent
        (postRequest "/bind"
          [("sessionKey", JsonValue.Str sessionKey), ("qq", JsonValue.Uint qq)])).2 = some e →
      (Bind J c qq sessionKey).1 = (none, some e) ∧ (Bind J c qq sessionKey).2.Bots = c.Bots) ∧
    (∀ qq bot e, c.Bots qq = some bot →
      (c.HttpClient.Respond c.HttpClient.Sent
        (postRequest "release"
          [("sessionKey", JsonValue.Str bot.SessionKey), ("qq", JsonValue.Uint qq)])).2 = some e →
      ∃ c', Release J c qq = Outcome.Return (some e, c') ∧ c'.Bots = c.Bots) := by
  have hget : ∀ path params e,
      (c.HttpClient.Respond c.HttpClient.Sent (getRequest path params)).2 = some e →
      (doGet J c path params).1 = ("", some e) := by
    intro path params e h
    rw [doGet_fst, h]
  have hpost : ∀ path data e,
      (c.HttpClient.Respond c.HttpClient.Sent (postRequest path data)).2 = some e →
      (doPost J c path data).1 = ("", some e) := by
    intro path data e h
    rw [doPost_fst, h]
  refine ⟨hget, hpost, ?_, ?_, ?_, ?_, ?_⟩
  · intro path fields e h
    rw [doPostWithFormData_fst, h]
  · intro e h
    simp [About, hget _ _ e h]
  · intro e h
    simp [Verify, hpost _ _ e h]
  · intro qq sessionKey e h
    simp [Bind, hpost _ _ e h, doPost_snd]
  · intro qq bot e hbot h
    obtain ⟨err, c', hrel, herr, _, _, hkeep⟩ := Release_of_entry J c qq bot hbot
    rw [hpost _ _ e h] at herr
    subst herr
    exact ⟨c', hrel, hkeep (by simp)⟩

/-- C5 at a concrete input: a transport that is down and whose error names the
request, so each operation must return the error of its own `Send`. -/
theorem transport_error_returned_witness :
    (About stubJson refusedClient).1
      = ("", some (GoError.Transport "GET /about: connection refused")) ∧
    (Verify stubJson refusedClient).1
      = ("", some (GoError.Transport "POST /verify: connection refused")) ∧
    (Bind stubJson refusedClient 678 "def456").1
      = (none, some (GoError.Transport "POST /bind: connection refused")) ∧
    (Bind stubJson refusedClient 678 "def456").2.Bots = refusedClient.Bots ∧
    (doPostWithFormData stubJson refusedClient "/uploadImage"
        [("type", FieldValue.Text "group")]).1
      = ("", some (GoError.Transport "POST /uploadImage: connection refused")) ∧
    ∃ c', Release stubJson refusedClient 12345
        = Outcome.Return (some (GoError.Transport "POST release: connection refused"), c') ∧
      c'.Bots = refusedClient.Bots :=
  have H := transport_error_returned stubJson refusedClient
  ⟨H.2.2.2.1 _ rfl, H.2.2.2.2.1 _ rfl,
    (H.2.2.2.2.2.1 678 "def456" _ rfl).1, (H.2.2.2.2.2.1 678 "def456" _ rfl).2,
    H.2.2.1 "/uploadImage" [("type", FieldValue.Text "group")] _ rfl,
    H.2.2.2.2.2.2 12345 ⟨12345, "abc123"⟩ _ rfl rfl⟩

/-- The first statement of `Release` on a missing key: the lookup yields nil and
reading its `SessionKey` panics. -/
theorem Release_nil_entry (J : JsonAccessor) (c : Client) (qq : Nat)
    (h : c.Bots qq = none) :
    Release J c qq
      = Outcome.Panic "runtime error: invalid memory address or nil pointer dereference" := by
  unfold Release
  simp only [h]

/-- C6: `Release` for an identity without an entry in the registry panics on
the nil entry; it returns no error value. -/
theorem Release_without_entry_panics (J : JsonAccessor) (c : Client) (qq : Nat)
    (h : c.Bots qq = none) :
    Release J c qq
      = Outcome.Panic "runtime error: invalid memory address or nil pointer dereference" :=
  Release_nil_entry J c qq h

/-- C6 at a concrete input: a new client, identity 12345. -/
theorem Release_without_entry_panics_witness :
    (NewClient "secret" (stubServer ⟨true, 200, "\x7b\"code\":0\x7d"⟩ none)).Bots 12345 = none ∧
    Release stubJson (NewClient "secret" (stubServer ⟨true, 200, "\x7b\"code\":0\x7d"⟩ none))
        12345
      = Outcome.Panic "runtime error: invalid memory address or nil pointer dereference" :=
  ⟨rfl, Release_without_entry_panics stubJson _ 12345 rfl⟩

/-- After a `Bind` and a `Release` of `qq` that both return no error, a second
`Release` of `qq` panics. -/
theorem second_Release_panics (J : JsonAccessor) (c c2 : Client) (qq : Nat)
    (sessionKey : String)
    (hrel : Release J (Bind J c qq sessionKey).2 qq = Outcome.Return (none, c2)) :
    Release J c2 qq
      = Outcome.Panic "runtime error: invalid memory address or nil pointer dereference" := by
  cases hb : (Bind J c qq sessionKey).2.Bots qq with
  | none =>
    have hp := Release_nil_entry J _ qq hb
    rw [hp] at hrel
    cases hrel
  | some bot =>
    obtain ⟨err, c', hret, _, _, hdel, _⟩ := Release_of_entry J _ qq bot hb
    rw [hret] at hrel
    injection hrel with hpair
    injection hpair with herr hc
    subst herr; subst hc
    apply Release_nil_entry
    rw [hdel rfl]
    simp [mapDelete]

/-- C7: after a `Bind` of `qq` that returns no error, `Release` of `qq` returns
(it does not panic), and when it returns no error the registry has no entry for
`qq` and the entry of every other identity is what it was before the `Bind`. -/
theorem bind_then_release (J : JsonAccessor) (c : Client) (qq : Nat) (sessionKey : String)
    (hbind : (Bind J c qq sessionKey).1.2 = none) :
    (∃ r, Release J (Bind J c qq sessionKey).2 qq = Outcome.Return r) ∧
    (∀ c2, Release J (Bind J c qq sessionKey).2 qq = Outcome.Return (none, c2) →
      c2.Bots qq = none ∧ ∀ k, k ≠ qq → c2.Bots k = c.Bots k) := by
  obtain ⟨_, hbots, _⟩ := Bind_of_success J c qq sessionKey hbind
  have hentry : (Bind J c qq sessionKey).2.Bots qq = some ⟨qq, sessionKey⟩ := by
    rw [hbots]; simp [mapStore]
  obtain ⟨err, c', hret, _, _, hdel, _⟩ := Release_of_entry J _ qq _ hentry
  refine ⟨⟨_, hret⟩, ?_⟩
  intro c2 hrel
  rw [hret] at hrel
  injection hrel with hpair
  injection hpair with herr hc
  subst herr; subst hc
  rw [hdel rfl, hbots]
  refine ⟨by simp [mapDelete], ?_⟩
  intro k hk
  simp [mapDelete, mapStore, hk]

/-- C7 at a concrete input: `Bind(12345, "abc123")` then `Release(12345)`. -/
theorem bind_then_release_witness :
    (Bind stubJson acceptingClient 12345 "abc123").1.2 = none ∧
    ∃ c2, Release stubJson (Bind stubJson acceptingClient 12345 "abc123").2 12345
        = Outcome.Return (none, c2) ∧
      c2.Bots 12345 = none ∧ (∀ k, k ≠ 12345 → c2.Bots k = acceptingClient.Bots k) ∧
      c2.Bots 2 = some ⟨2, "s2"⟩ :=
  ⟨rfl, _, rfl,
    ((bind_then_release stubJson acceptingClient 12345 "abc123" rfl).2 _ rfl).1,
    ((bind_then_release stubJson acceptingClient 12345 "abc123" rfl).2 _ rfl).2, rfl⟩

/-- C8: after `Bind(qq, t1)` and then `Bind(qq, t2)`, both without error and
with `t1 ≠ t2`, the registry entry of `qq` is the bot with session key `t2`, the
other entries are what they were, and `Release(qq)` sends exactly one request,
the one whose `sessionKey` is `t2`, which is not the one with `t1`. -/
theorem last_bind_wins (J : JsonAccessor) (c : Client) (qq : Nat) (t1 t2 : String)
    (ht : t1 ≠ t2)
    (h1 : (Bind J c qq t1).1.2 = none)
    (h2 : (Bind J (Bind J c qq t1).2 qq t2).1.2 = none) :
    (Bind J (Bind J c qq t1).2 qq t2).2.Bots qq = some ⟨qq, t2⟩ ∧
    (∀ k, k ≠ qq → (Bind J (Bind J c qq t1).2 qq t2).2.Bots k = c.Bots k) ∧
    (∃ err c3, Release J (Bind J (Bind J c qq t1).2 qq t2).2 qq = Outcome.Return (err, c3) ∧
      c3.HttpClient.Sent = (Bind J (Bind J c qq t1).2 qq t2).2.HttpClient.Sent ++
        [postRequest "release" [("sessionKey", JsonValue.Str t2), ("qq", JsonValue.Uint qq)]]) ∧
    postRequest "release" [("sessionKey", JsonValue.Str t2), ("qq", JsonValue.Uint qq)]
      ≠ postRequest "release" [("sessionKey", JsonValue.Str t1), ("qq", JsonValue.Uint qq)] := by
  obtain ⟨_, hb1, _⟩ := Bind_of_success J c qq t1 h1
  obtain ⟨_, hb2, _⟩ := Bind_of_success J _ qq t2 h2
  have hentry : (Bind J (Bind J c qq t1).2 qq t2).2.Bots qq = some ⟨qq, t2⟩ := by
    rw [hb2]; simp [mapStore]
  refine ⟨hentry, ?_, ?_, ?_⟩
  · intro k hk
    rw [hb2, hb1]
    simp [mapStore, hk]
  · obtain ⟨err, c3, hret, _, hsent, _, _⟩ := Release_of_entry J _ qq _ hentry
    exact ⟨err, c3, hret, hsent⟩
  · intro heq
    apply ht
    simp [postRequest] at heq
    exact heq.symm

/-- C8 at a concrete input: `Bind(12345, "abc123")`, `Bind(12345, "xyz789")`,
`Release(12345)` on a new client. -/
theorem last_bind_wins_witness :
    "abc123" ≠ "xyz789" ∧
    (Bind stubJson (NewClient "secret" (stubServer ⟨true, 200, "\x7b\"code\":0\x7d"⟩ none))
      12345 "abc123").1.2 = none ∧
    (Bind stubJson
      (Bind stubJson (NewClient "secret" (stubServer ⟨true, 200, "\x7b\"code\":0\x7d"⟩ none))
        12345 "abc123").2 12345 "xyz789").1.2 = none ∧
    (Bind stubJson
      (Bind stubJson (NewClient "secret" (stubServer ⟨true, 200, "\x7b\"code\":0\x7d"⟩ none))
        12345 "abc123").2 12345 "xyz789").2.Bots 12345 = some ⟨12345, "xyz789"⟩ ∧
    ∃ err c3,
      Release stubJson
        (Bind stubJson
          (Bind stubJson
            (NewClient "secret" (stubServer ⟨true, 200, "\x7b\"code\":0\x7d"⟩ none))
            12345 "abc123").2 12345 "xyz789").2 12345 = Outcome.Return (err, c3) ∧
      c3.HttpClient.Sent =
        (Bind stubJson
          (Bind stubJson
            (NewClient "secret" (stubServer ⟨true, 200, "\x7b\"code\":0\x7d"⟩ none))
            12345 "abc123").2 12345 "xyz789").2.HttpClient.Sent ++
        [postRequest "release"
          [("sessionKey", JsonValue.Str "xyz789"), ("qq", JsonValue.Uint 12345)]] :=
  ⟨by decide, rfl, rfl,
    (last_bind_wins stubJson
      (NewClient "secret" (stubServer ⟨true, 200, "\x7b\"code\":0\x7d"⟩ none))
      12345 "abc123" "xyz789" (by decide) rfl rfl).1,
    (last_bind_wins stubJson
      (NewClient "secret" (stubServer ⟨true, 200, "\x7b\"code\":0\x7d"⟩ none))
      12345 "abc123" "xyz789" (by decide) rfl rfl).2.2.1⟩

/-- C9: a `Bind` that returns an error returns no bot, and the registry after
the call is the registry before it. -/
theorem failed_bind_keeps_registry (J : JsonAccessor) (c : Client) (qq : Nat)
    (sessionKey : String) (h : (Bind J c qq sessionKey).1.2 ≠ none) :
    (Bind J c qq sessionKey).1.1 = none ∧ (Bind J c qq sessionKey).2.Bots = c.Bots := by
  obtain ⟨hbot, hc⟩ := Bind_of_error J c qq sessionKey h
  refine ⟨hbot, ?_⟩
  rw [hc, doPost_snd]

/-- C9 at a concrete input: `Bind(12345, "abc123")` answered with `{"code":2}`. -/
theorem failed_bind_keeps_registry_witness :
    (Bind stubJson rejectingClient 12345 "abc123").1.2 ≠ none ∧
    (Bind stubJson rejectingClient 12345 "abc123").1
      = (none, some (GoError.New "指定的Bot不存在")) ∧
    (Bind stubJson rejectingClient 12345 "abc123").2.Bots = rejectingClient.Bots ∧
    (Bind stubJson rejectingClient 12345 "abc123").2.Bots 12345 = some ⟨12345, "old"⟩ :=
  ⟨by decide, by decide,
    (failed_bind_keeps_registry stubJson rejectingClient 12345 "abc123" (by decide)).2,
    rfl⟩

end Gomirai
